import Mathlib

/-!
Verification development for the `token_counter` tool
(`src/token_counter/counter.py`).

The program is a linear pipeline: walk a directory tree, classify each
file (excluded extension / PDF / binary / text), extract text, count
tokens with a tokenizer encoder, accumulate statistics, and print a
summary.  Below is a shallow embedding of that pipeline:

* file contents and per-file failure modes are data of a `FileEntry`
  (a `none` byte read models an I/O exception in `is_binary_file`;
  a `none` text read models the exception branch of `read_text_file`;
  `pdfFailAfter = some k` models an exception raised after `k` pages of
  the PDF loop have been processed, `k = 0` covering open/parse
  failures);
* the tokenizer encoder is an abstract pure function `String → List Nat`
  standing for `encoder.encode`;
* printed lines (info lines, warnings, the summary block) are collected
  in a `List String`;
* `sys.exit` is modelled by the `RunResult.earlyExit` constructor;
* `np.sum` / `np.mean` / `np.median` are modelled over `ℚ`, with `none`
  standing for the `nan` that numpy yields on an empty sequence.

Number formatting (the thousands separator of `format`) is not modelled;
output lines carry plain decimal renderings of the same values.
-/

namespace TokenCounter

/-- The fixed denylist `EXCLUDED_EXTENSIONS` from the source, verbatim. -/
def EXCLUDED_EXTENSIONS : List String :=
  [".png", ".jpg", ".jpeg", ".gif", ".bmp", ".ico", ".svg", ".webp",
   ".mp3", ".mp4", ".wav", ".avi", ".mov", ".mkv", ".flac",
   ".zip", ".tar", ".gz", ".rar", ".7z",
   ".exe", ".dll", ".so", ".dylib",
   ".pyc", ".pyo", ".class",
   ".bin", ".dat", ".db", ".sqlite",
   ".ttf", ".otf", ".woff", ".woff2"]

/-- A file as the scanner sees it: its name and the outcomes of the
three ways the program may read it.  `bytes = none` means the binary
read raises; `textRead = none` means the UTF-8 text read raises;
`pdfFailAfter = some k` means PDF processing raises after `k` pages of
the page loop have completed (`k = 0`: the open or `PdfReader` parse
itself fails). -/
structure FileEntry where
  name : String
  bytes : Option (List Nat)
  textRead : Option String
  pdfPages : List String
  pdfFailAfter : Option Nat
deriving DecidableEq

/-- Index of the last occurrence of `c`, if any. -/
def lastIdxOf (c : Char) : List Char → Option Nat
  | [] => none
  | x :: xs =>
    match lastIdxOf c xs with
    | some i => some (i + 1)
    | none => if x = c then some 0 else none

/-- The extension part of `os.path.splitext` applied to a bare filename:
the suffix from the last dot onward, except that a leading run of dots
is not an extension (`.env` has extension `""`). -/
def splitextExt (s : String) : String :=
  match lastIdxOf '.' s.data with
  | none => ""
  | some i =>
    if (s.data.take i).any (fun ch => ch ≠ '.') then String.mk (s.data.drop i) else ""

/-- Lowercase a string characterwise, as `str.lower` does on the ASCII
extensions at issue here. -/
def strLower (s : String) : String :=
  String.mk (s.data.map Char.toLower)

/-- `ext = os.path.splitext(filename)[1]; ext = ext.lower()`. -/
def fileExt (f : FileEntry) : String :=
  strLower (splitextExt f.name)

/-- `str.startswith('.')`: the first character is a dot. -/
def startsWithDot (s : String) : Bool :=
  match s.data with
  | [] => false
  | c :: _ => c = '.'

/-- `is_binary_file`: read up to the first 8192 bytes and report binary
if a null byte occurs there; any read failure also reports binary. -/
def is_binary_file (f : FileEntry) : Bool :=
  match f.bytes with
  | none => true
  | some chunk => (chunk.take 8192).contains 0

/-- The same sniff as a function of the read outcome alone; used to
reason about which bytes the sniff can depend on. -/
def sniff (o : Option (List Nat)) : Bool :=
  match o with
  | none => true
  | some chunk => (chunk.take 8192).contains 0

/-- `extract_text_from_pdf`: collect the text of each page in order,
keeping only non-empty page texts, until the end or until the failure
point; on failure print a warning naming the file; finally join the
collected parts with newlines.  Returns the text and the printed
warning lines. -/
def extract_text_from_pdf (filepath : String) (f : FileEntry) : String × List String :=
  let processed :=
    match f.pdfFailAfter with
    | none => f.pdfPages
    | some k => f.pdfPages.take k
  let text_parts := processed.filter (fun p => p ≠ "")
  let warnings :=
    match f.pdfFailAfter with
    | none => []
    | some _ => ["[warning] Cannot read PDF file: " ++ filepath]
  ("\n".intercalate text_parts, warnings)

/-- `read_text_file`: the whole file as UTF-8 text, or on failure a
warning naming the file and the empty string. -/
def read_text_file (filepath : String) (f : FileEntry) : String × List String :=
  match f.textRead with
  | some s => (s, [])
  | none => ("", ["[warning] 파일 읽기 실패: " ++ filepath])

/-- An abstract tokenizer encoder: the `encode` method of a
`tiktoken.Encoding`, a pure function from text to a token sequence. -/
def Encoder : Type := String → List Nat

/-- `count_tokens`: zero for a falsy (empty) string, otherwise the
length of the encoder's encoding. -/
def count_tokens (text : String) (encoder : Encoder) : Nat :=
  if text = "" then 0 else (encoder text).length

/-- The accumulator dict built by `scan_directory`. -/
structure Stats where
  tokens : List Nat
  total_files : Nat
  pdf_files : Nat
  text_files : Nat
  skipped_files : Nat
deriving DecidableEq

/-- The initial accumulator: empty token list, all counters zero. -/
def initStats : Stats :=
  { tokens := [], total_files := 0, pdf_files := 0, text_files := 0, skipped_files := 0 }

/-- The per-file info line `[info] path: N tokens`. -/
def infoLine (filepath : String) (tokens : Nat) : String :=
  "[info] " ++ filepath ++ ": " ++ toString tokens ++ " tokens"

/-- The body of the inner loop of `scan_directory` for one file:
classify by extension, dispatch, and update the accumulator.  Returns
the new accumulator and the lines printed while handling this file. -/
def processFile (encoder : Encoder) (stats : Stats) (filepath : String)
    (f : FileEntry) : Stats × List String :=
  if fileExt f ∈ EXCLUDED_EXTENSIONS then
    ({ stats with skipped_files := stats.skipped_files + 1 }, [])
  else if fileExt f = ".pdf" then
    let r := extract_text_from_pdf filepath f
    let tokens := count_tokens r.1 encoder
    ({ stats with
        tokens := stats.tokens ++ [tokens],
        pdf_files := stats.pdf_files + 1,
        total_files := stats.total_files + 1 },
     r.2 ++ [infoLine filepath tokens])
  else if is_binary_file f then
    ({ stats with skipped_files := stats.skipped_files + 1 }, [])
  else
    let r := read_text_file filepath f
    let tokens := count_tokens r.1 encoder
    ({ stats with
        tokens := stats.tokens ++ [tokens],
        text_files := stats.text_files + 1,
        total_files := stats.total_files + 1 },
     r.2 ++ [infoLine filepath tokens])

/-- A directory tree: the directory's own name, its files, and its
subdirectories.  This models the filesystem that `os.walk` traverses. -/
inductive DirTree where
  | node (dirname : String) (files : List FileEntry) (subdirs : List DirTree)

/-- The pruning filter applied to `dirs[:]` in `scan_directory`: keep a
directory iff its name does not start with a dot and is not one of the
fixed non-source directory names. -/
def keepDir (d : String) : Bool :=
  !(startsWithDot d) && !(d ∈ ["node_modules", "__pycache__", "venv", ".git"])

/-- `os.path.join` for the simple relative case used here. -/
def path_join (a b : String) : String := a ++ "/" ++ b

mutual

/-- The sequence of `(filepath, file)` pairs visited by the pruned
`os.walk`: the current directory's files first, then the kept
subdirectories in order. -/
def walkFrom (root : String) : DirTree → List (String × FileEntry)
  | DirTree.node _ files subdirs =>
    files.map (fun f => (path_join root f.name, f)) ++ walkSubs root subdirs

/-- Walk a list of candidate subdirectories, descending only into those
the filter keeps. -/
def walkSubs (root : String) : List DirTree → List (String × FileEntry)
  | [] => []
  | DirTree.node d files subdirs :: rest =>
    (if keepDir d then walkFrom (path_join root d) (DirTree.node d files subdirs) else [])
      ++ walkSubs root rest

end

/-- One iteration of the scanning fold: process a file and append its
printed lines to the transcript. -/
def scanStep (encoder : Encoder) (acc : Stats × List String)
    (pf : String × FileEntry) : Stats × List String :=
  let r := processFile encoder acc.1 pf.1 pf.2
  (r.1, acc.2 ++ r.2)

/-- `scan_directory`: fold the per-file step over every file the pruned
walk visits, starting from the zero accumulator. -/
def scan_directory (base_path : String) (t : DirTree) (encoder : Encoder) :
    Stats × List String :=
  (walkFrom base_path t).foldl (scanStep encoder) (initStats, [])

/-- `np.sum` of the token list. -/
def npSum (l : List Nat) : Nat := l.foldl (· + ·) 0

/-- Insert into a sorted list (ascending). -/
def insertSorted (x : Nat) : List Nat → List Nat
  | [] => [x]
  | y :: ys => if x ≤ y then x :: y :: ys else y :: insertSorted x ys

/-- Sort ascending, as the order statistics of `np.median` require. -/
def sortNat (l : List Nat) : List Nat := l.foldr insertSorted []

/-- `np.mean`: `nan` (modelled `none`) on an empty list, otherwise the
exact arithmetic mean. -/
def npMean (l : List Nat) : Option ℚ :=
  if l = [] then none else some ((npSum l : ℚ) / (l.length : ℚ))

/-- `np.median`: `nan` (modelled `none`) on an empty list; the middle
order statistic for odd length, the mean of the two middle ones for
even length. -/
def npMedian (l : List Nat) : Option ℚ :=
  if l = [] then none
  else
    let s := sortNat l
    let n := l.length
    if n % 2 = 1 then some ((s.getD (n / 2) 0 : ℚ))
    else some (((s.getD (n / 2 - 1) 0 : ℚ) + (s.getD (n / 2) 0 : ℚ)) / 2)

/-- Render an aggregate that may be `nan`. -/
def fmtStat : Option ℚ → String
  | none => "nan"
  | some q => toString q.num ++ "/" ++ toString q.den

/-- The separator line printed before the summary. -/
def sepLine : String :=
  "------------------------------------------------------------"

/-- The seven aggregate lines printed after the scan. -/
def summaryLines (s : Stats) : List String :=
  ["[info] # of total files: " ++ toString s.total_files,
   "[info] # of PDF files: " ++ toString s.pdf_files,
   "[info] # of text files: " ++ toString s.text_files,
   "[info] # of skipped files: " ++ toString s.skipped_files,
   "[info] # of total tokens: " ++ toString (npSum s.tokens),
   "[info] Avg. tokens per documents: " ++ fmtStat (npMean s.tokens),
   "[info] Med. tokens per documents: " ++ fmtStat (npMedian s.tokens)]

/-- The command-line arguments. -/
structure Args where
  base_path : String
  model : String

/-- The pieces of the `tiktoken` registry the program touches:
`encoding_for_model` (with `none` standing for the `KeyError` on an
unknown model name) and the fixed fallback encoding `cl100k_base`. -/
structure Tiktoken where
  encoding_for_model : String → Option Encoder
  cl100k_base : Encoder

/-- How a run ends: an early `sys.exit code`, or normal completion with
the final statistics. -/
inductive RunResult where
  | earlyExit (code : Nat)
  | completed (stats : Stats)

/-- The error line printed for a missing base path. -/
def errorLine (p : String) : String :=
  "[error] <base_path> does not exist: " ++ p

/-- `main`: abort with the error line and `sys.exit(0)` when the base
path does not exist (`root = none`); otherwise resolve the encoder,
falling back to `cl100k_base` on an unknown model, scan, and print the
separator and the seven summary lines.  Returns the run outcome and the
full transcript of printed lines. -/
def main (root : Option DirTree) (args : Args) (tk : Tiktoken) :
    RunResult × List String :=
  match root with
  | none => (RunResult.earlyExit 0, [errorLine args.base_path])
  | some t =>
    let encoder : Encoder :=
      match tk.encoding_for_model args.model with
      | some e => e
      | none => tk.cl100k_base
    let r := scan_directory args.base_path t encoder
    (RunResult.completed r.1, r.2 ++ [sepLine] ++ summaryLines r.1)

/-! Concrete fixtures used by witnesses and counterexamples. -/

/-- A concrete encoder: one token per character. -/
def enc0 : Encoder := fun s => s.data.map Char.toNat

/-- A second concrete encoder, everywhere different from `enc0`. -/
def enc1 : Encoder := fun _ => [7]

/-- An excluded-extension file (uppercase name, contents present). -/
def pngFile : FileEntry :=
  { name := "PIC.PNG", bytes := some [0, 1], textRead := some "junk",
    pdfPages := [], pdfFailAfter := none }

/-- Same name as `pngFile`, entirely different contents. -/
def pngFile2 : FileEntry :=
  { name := "PIC.PNG", bytes := none, textRead := none,
    pdfPages := ["p"], pdfFailAfter := some 0 }

/-- A non-excluded, non-PDF file with a null byte in its first bytes. -/
def binFileA : FileEntry :=
  { name := "x.xyz", bytes := some [0, 65], textRead := some "zz",
    pdfPages := [], pdfFailAfter := none }

/-- Same readable bytes as `binFileA`, different text-read outcome. -/
def binFileB : FileEntry :=
  { name := "x.xyz", bytes := some [0, 65], textRead := none,
    pdfPages := [], pdfFailAfter := none }

/-- A PDF whose page loop fails after one page yielded "hello". -/
def badPdf : FileEntry :=
  { name := "bad.pdf", bytes := some [37], textRead := none,
    pdfPages := ["hello", "world"], pdfFailAfter := some 1 }

/-- A PDF whose open/parse fails before any page is processed. -/
def deadPdf : FileEntry :=
  { name := "dead.pdf", bytes := none, textRead := none,
    pdfPages := ["x"], pdfFailAfter := some 0 }

/-- A readable text file whose own name starts with a dot. -/
def dotfile : FileEntry :=
  { name := ".env", bytes := some [104, 105], textRead := some "hi",
    pdfPages := [], pdfFailAfter := none }

/-- A directory with no files at all. -/
def emptyTree : DirTree := DirTree.node "b" [] []

/-- A directory holding only the dot-named text file. -/
def dotTree : DirTree := DirTree.node "b" [dotfile] []

/-- Concrete command-line arguments. -/
def args0 : Args := { base_path := "/b", model := "gpt-unknown" }

/-- A registry that knows no model name at all. -/
def tk0 : Tiktoken := { encoding_for_model := fun _ => none, cl100k_base := enc0 }

/-! Helper lemmas about the per-file step. -/

theorem processFile_excluded (encoder : Encoder) (stats : Stats) (filepath : String)
    (f : FileEntry) (h : fileExt f ∈ EXCLUDED_EXTENSIONS) :
    processFile encoder stats filepath f =
      ({ stats with skipped_files := stats.skipped_files + 1 }, []) := by
  simp [processFile, h]

theorem processFile_pdf (encoder : Encoder) (stats : Stats) (filepath : String)
    (f : FileEntry) (h1 : fileExt f ∉ EXCLUDED_EXTENSIONS) (h2 : fileExt f = ".pdf") :
    processFile encoder stats filepath f =
      ({ stats with
          tokens := stats.tokens ++ [count_tokens (extract_text_from_pdf filepath f).1 encoder],
          pdf_files := stats.pdf_files + 1,
          total_files := stats.total_files + 1 },
       (extract_text_from_pdf filepath f).2
         ++ [infoLine filepath (count_tokens (extract_text_from_pdf filepath f).1 encoder)]) := by
  have h1' : (".pdf" : String) ∉ EXCLUDED_EXTENSIONS := h2 ▸ h1
  simp [processFile, h1', h2]

theorem processFile_bin (encoder : Encoder) (stats : Stats) (filepath : String)
    (f : FileEntry) (h1 : fileExt f ∉ EXCLUDED_EXTENSIONS) (h2 : fileExt f ≠ ".pdf")
    (h3 : is_binary_file f = true) :
    processFile encoder stats filepath f =
      ({ stats with skipped_files := stats.skipped_files + 1 }, []) := by
  simp [processFile, h1, h2, h3]

theorem processFile_text (encoder : Encoder) (stats : Stats) (filepath : String)
    (f : FileEntry) (h1 : fileExt f ∉ EXCLUDED_EXTENSIONS) (h2 : fileExt f ≠ ".pdf")
    (h3 : is_binary_file f = false) :
    processFile encoder stats filepath f =
      ({ stats with
          tokens := stats.tokens ++ [count_tokens (read_text_file filepath f).1 encoder],
          text_files := stats.text_files + 1,
          total_files := stats.total_files + 1 },
       (read_text_file filepath f).2
         ++ [infoLine filepath (count_tokens (read_text_file filepath f).1 encoder)]) := by
  simp [processFile, h1, h2, h3]

/-! Claims C2, C3, C7, C8. -/

/-- C2: a file whose lowercased extension lies in the fixed exclusion
set is never opened for content sniffing or extraction — the step's
outcome does not depend on any of the file's contents, only its name —
and it increments only `skipped_files`, recording no token count and
printing nothing. -/
theorem C2_excluded_skip (encoder : Encoder) (stats : Stats) (filepath : String)
    (f g : FileEntry) (hex : fileExt f ∈ EXCLUDED_EXTENSIONS) (hname : g.name = f.name) :
    processFile encoder stats filepath f =
      ({ stats with skipped_files := stats.skipped_files + 1 }, [])
    ∧ processFile encoder stats filepath g = processFile encoder stats filepath f := by
  have hg : fileExt g = fileExt f := by simp [fileExt, hname]
  constructor
  · exact processFile_excluded encoder stats filepath f hex
  · rw [processFile_excluded encoder stats filepath f hex,
      processFile_excluded encoder stats filepath g (by rw [hg]; exact hex)]

theorem C2_excluded_skip_witness :
    processFile enc0 initStats "/b/PIC.PNG" pngFile =
      ({ initStats with skipped_files := initStats.skipped_files + 1 }, [])
    ∧ processFile enc0 initStats "/b/PIC.PNG" pngFile2 =
        processFile enc0 initStats "/b/PIC.PNG" pngFile :=
  C2_excluded_skip enc0 initStats "/b/PIC.PNG" pngFile pngFile2 (by decide) rfl

/-- C3: for a non-excluded, non-`.pdf` file, the binary sniff reports
Binary exactly when a null byte occurs in the first 8192 bytes or the
read fails; it depends on at most those first 8192 bytes; and a file it
classifies Binary increments only `skipped_files`, printing nothing. -/
theorem C3_binary_sniff (encoder : Encoder) (stats : Stats) (filepath : String)
    (f g : FileEntry)
    (hpre : f.bytes.map (List.take 8192) = g.bytes.map (List.take 8192))
    (hex : fileExt f ∉ EXCLUDED_EXTENSIONS) (hpdf : fileExt f ≠ ".pdf") :
    (is_binary_file f = true ↔
      (f.bytes = none ∨ ((f.bytes.getD []).take 8192).contains 0 = true))
    ∧ is_binary_file f = is_binary_file g
    ∧ (is_binary_file f = true →
        processFile encoder stats filepath f =
          ({ stats with skipped_files := stats.skipped_files + 1 }, [])) := by
  have hfs : is_binary_file f = sniff f.bytes := by
    cases f
    rfl
  have hgs : is_binary_file g = sniff g.bytes := by
    cases g
    rfl
  have hsniff : ∀ o : Option (List Nat), sniff o = sniff (o.map (List.take 8192)) := by
    intro o
    cases o with
    | none => rfl
    | some chunk => simp [sniff, List.take_take]
  refine ⟨?_, ?_, fun hb => processFile_bin encoder stats filepath f hex hpdf hb⟩
  · rw [hfs]
    cases hfb : f.bytes with
    | none => simp [sniff]
    | some chunk => simp [sniff, hfb]
  · rw [hfs, hgs, hsniff f.bytes, hsniff g.bytes, hpre]

theorem C3_binary_sniff_witness :
    (is_binary_file binFileA = true ↔
      (binFileA.bytes = none ∨ ((binFileA.bytes.getD []).take 8192).contains 0 = true))
    ∧ is_binary_file binFileA = is_binary_file binFileB
    ∧ (is_binary_file binFileA = true →
        processFile enc0 initStats "/b/x.xyz" binFileA =
          ({ initStats with skipped_files := initStats.skipped_files + 1 }, [])) :=
  C3_binary_sniff enc0 initStats "/b/x.xyz" binFileA binFileB rfl (by decide) (by decide)

/-- C7: when the base path does not exist, `main` prints exactly the
one error line naming the path and exits at once (the reference calls
`sys.exit(0)`, so the concrete exit code is 0): no scan runs and no
other output is produced. -/
theorem C7_missing_base_path (args : Args) (tk : Tiktoken) :
    main none args tk = (RunResult.earlyExit 0, [errorLine args.base_path]) := rfl

/-- C8: `count_tokens` returns 0 on the empty string without consulting
the encoder (any two encoders agree there), and on a non-empty string
returns exactly the length of the encoder's encoding of that string;
being a pure function of the text and encoder, repeated runs on the
same input agree. -/
theorem C8_count_tokens (encoder e2 : Encoder) (text : String) (h : text ≠ "") :
    count_tokens "" encoder = 0
    ∧ count_tokens "" encoder = count_tokens "" e2
    ∧ count_tokens text encoder = (encoder text).length := by
  refine ⟨rfl, rfl, ?_⟩
  simp [count_tokens, h]

theorem C8_count_tokens_witness :
    count_tokens "" enc0 = 0
    ∧ count_tokens "" enc0 = count_tokens "" enc1
    ∧ count_tokens "ab" enc0 = (enc0 "ab").length :=
  C8_count_tokens enc0 enc1 "ab" (by decide)

/-! Shape of one step of the scanning fold: it either skips (only
`skipped_files` changes) or records (one token appended, `total_files`
up by one, exactly one of `pdf_files`/`text_files` up by one). -/

theorem processFile_shape (encoder : Encoder) (stats : Stats) (filepath : String)
    (f : FileEntry) :
    ((processFile encoder stats filepath f).1 =
       { stats with skipped_files := stats.skipped_files + 1 })
    ∨ (∃ tok : Nat,
        (processFile encoder stats filepath f).1.tokens = stats.tokens ++ [tok]
        ∧ (processFile encoder stats filepath f).1.total_files = stats.total_files + 1
        ∧ (processFile encoder stats filepath f).1.skipped_files = stats.skipped_files
        ∧ (processFile encoder stats filepath f).1.pdf_files
            + (processFile encoder stats filepath f).1.text_files
            = stats.pdf_files + stats.text_files + 1
        ∧ stats.text_files ≤ (processFile encoder stats filepath f).1.text_files) := by
  by_cases h1 : fileExt f ∈ EXCLUDED_EXTENSIONS
  · left
    rw [processFile_excluded encoder stats filepath f h1]
  · by_cases h2 : fileExt f = ".pdf"
    · right
      refine ⟨count_tokens (extract_text_from_pdf filepath f).1 encoder, ?_⟩
      rw [processFile_pdf encoder stats filepath f h1 h2]
      refine ⟨rfl, rfl, rfl, ?_, le_refl _⟩
      simp
      omega
    · by_cases h3 : is_binary_file f
      · left
        rw [processFile_bin encoder stats filepath f h1 h2 h3]
      · right
        refine ⟨count_tokens (read_text_file filepath f).1 encoder, ?_⟩
        rw [processFile_text encoder stats filepath f h1 h2 (by simpa using h3)]
        refine ⟨rfl, rfl, rfl, ?_, by simp⟩
        simp
        omega

/-- The running-statistics invariant after processing `n` files. -/
def statsInv (s : Stats) (n : Nat) : Prop :=
  s.total_files = s.pdf_files + s.text_files
  ∧ s.tokens.length = s.total_files
  ∧ s.skipped_files + s.tokens.length = n

theorem scanStep_inv (encoder : Encoder) (acc : Stats × List String)
    (pf : String × FileEntry) (n : Nat) (h : statsInv acc.1 n) :
    statsInv (scanStep encoder acc pf).1 (n + 1) := by
  obtain ⟨i1, i2, i3⟩ := h
  have hstep : (scanStep encoder acc pf).1 = (processFile encoder acc.1 pf.1 pf.2).1 := rfl
  rw [statsInv, hstep]
  rcases processFile_shape encoder acc.1 pf.1 pf.2 with hskip | ⟨tok, ht, htot, hsk, hpt, _⟩
  · rw [hskip]
    exact ⟨i1, i2, by simp; omega⟩
  · have hlen : (processFile encoder acc.1 pf.1 pf.2).1.tokens.length
        = acc.1.tokens.length + 1 := by
      rw [ht]
      simp
    exact ⟨by omega, by omega, by omega⟩

theorem scan_foldl_inv (encoder : Encoder) (l : List (String × FileEntry)) :
    ∀ (acc : Stats × List String) (n : Nat), statsInv acc.1 n →
      statsInv ((l.foldl (scanStep encoder) acc).1) (n + l.length) := by
  induction l with
  | nil =>
    intro acc n h
    simpa using h
  | cons pf rest ih =>
    intro acc n h
    rw [List.foldl_cons, List.length_cons]
    have hstep := scanStep_inv encoder acc pf n h
    have := ih (scanStep encoder acc pf) (n + 1) hstep
    have harith : n + 1 + rest.length = n + (rest.length + 1) := by omega
    rwa [harith] at this

/-- C1: after any scan, `total_files = pdf_files + text_files`, the
recorded token list has exactly `total_files` entries, and
`skipped_files` counts exactly the visited files that contributed no
token-count sample (skipped plus sampled = all files the walk
visited). -/
theorem C1_stats_invariant (base_path : String) (t : DirTree) (encoder : Encoder) :
    (scan_directory base_path t encoder).1.total_files
      = (scan_directory base_path t encoder).1.pdf_files
        + (scan_directory base_path t encoder).1.text_files
    ∧ (scan_directory base_path t encoder).1.tokens.length
        = (scan_directory base_path t encoder).1.total_files
    ∧ (scan_directory base_path t encoder).1.skipped_files
        + (scan_directory base_path t encoder).1.tokens.length
        = (walkFrom base_path t).length := by
  have h := scan_foldl_inv encoder (walkFrom base_path t) (initStats, []) 0
    ⟨rfl, rfl, rfl⟩
  simpa [scan_directory] using h

/-- C4 counterexample: a PDF whose page loop fails after one page has
already yielded the text "hello".  The failure is logged, but the file
contributes the token count of the partial text (5 under `enc0`), not
0, because `extract_text_from_pdf` joins whatever pages were collected
before the exception. -/
theorem C4_counterexample :
    fileExt badPdf = ".pdf"
    ∧ badPdf.pdfFailAfter.isSome = true
    ∧ (extract_text_from_pdf "/b/bad.pdf" badPdf).2
        = ["[warning] Cannot read PDF file: /b/bad.pdf"]
    ∧ (processFile enc0 initStats "/b/bad.pdf" badPdf).1.tokens = [5]
    ∧ ¬ (processFile enc0 initStats "/b/bad.pdf" badPdf).1.tokens = [0] := by
  refine ⟨rfl, rfl, rfl, rfl, ?_⟩
  decide

/-- C4 (amended): for a `.pdf` file whose parsing or reading fails, the
run logs a warning naming the file, `pdf_files` and `total_files` are
still incremented, and the file contributes the token count of the text
extracted before the failure — which is 0 whenever the failure occurs
before any page was processed (e.g. a corrupt PDF that fails to
parse). -/
theorem C4_pdf_failure_recovery (encoder : Encoder) (stats : Stats) (filepath : String)
    (f : FileEntry) (hpdf : fileExt f = ".pdf") (hfail : f.pdfFailAfter.isSome = true) :
    ("[warning] Cannot read PDF file: " ++ filepath) ∈ (processFile encoder stats filepath f).2
    ∧ (processFile encoder stats filepath f).1.pdf_files = stats.pdf_files + 1
    ∧ (processFile encoder stats filepath f).1.total_files = stats.total_files + 1
    ∧ (processFile encoder stats filepath f).1.tokens
        = stats.tokens ++ [count_tokens (extract_text_from_pdf filepath f).1 encoder]
    ∧ (f.pdfFailAfter = some 0 →
        count_tokens (extract_text_from_pdf filepath f).1 encoder = 0) := by
  have hex : fileExt f ∉ EXCLUDED_EXTENSIONS := by
    rw [hpdf]
    decide
  obtain ⟨k, hk⟩ := Option.isSome_iff_exists.mp hfail
  rw [processFile_pdf encoder stats filepath f hex hpdf]
  refine ⟨?_, rfl, rfl, rfl, ?_⟩
  · simp [extract_text_from_pdf, hk]
  · intro h0
    have hi : ("\n".intercalate ([] : List String)) = "" := rfl
    simp [extract_text_from_pdf, h0, count_tokens, hi]

theorem C4_pdf_failure_recovery_witness :
    ("[warning] Cannot read PDF file: /b/dead.pdf")
        ∈ (processFile enc0 initStats "/b/dead.pdf" deadPdf).2
    ∧ (processFile enc0 initStats "/b/dead.pdf" deadPdf).1.pdf_files
        = initStats.pdf_files + 1
    ∧ (processFile enc0 initStats "/b/dead.pdf" deadPdf).1.total_files
        = initStats.total_files + 1
    ∧ (processFile enc0 initStats "/b/dead.pdf" deadPdf).1.tokens
        = initStats.tokens
          ++ [count_tokens (extract_text_from_pdf "/b/dead.pdf" deadPdf).1 enc0]
    ∧ (deadPdf.pdfFailAfter = some 0 →
        count_tokens (extract_text_from_pdf "/b/dead.pdf" deadPdf).1 enc0 = 0) :=
  C4_pdf_failure_recovery enc0 initStats "/b/dead.pdf" deadPdf (by decide) rfl

/-- C5: when the model name is unknown to the registry
(`encoding_for_model` raises `KeyError`, modelled `none`), the run does
not abort: it silently uses the fixed `cl100k_base` encoding and still
produces the complete transcript ending in the seven-line summary. -/
theorem C5_unknown_model_fallback (t : DirTree) (args : Args) (tk : Tiktoken)
    (h : tk.encoding_for_model args.model = none) :
    main (some t) args tk =
      (RunResult.completed (scan_directory args.base_path t tk.cl100k_base).1,
       (scan_directory args.base_path t tk.cl100k_base).2 ++ [sepLine]
         ++ summaryLines (scan_directory args.base_path t tk.cl100k_base).1)
    ∧ (summaryLines (scan_directory args.base_path t tk.cl100k_base).1).length = 7 := by
  constructor
  · simp [main, h]
  · rfl

theorem C5_unknown_model_fallback_witness :
    main (some emptyTree) args0 tk0 =
      (RunResult.completed (scan_directory args0.base_path emptyTree tk0.cl100k_base).1,
       (scan_directory args0.base_path emptyTree tk0.cl100k_base).2 ++ [sepLine]
         ++ summaryLines (scan_directory args0.base_path emptyTree tk0.cl100k_base).1)
    ∧ (summaryLines (scan_directory args0.base_path emptyTree tk0.cl100k_base).1).length
        = 7 :=
  C5_unknown_model_fallback emptyTree args0 tk0 rfl

/-- C6: scanning a directory in which the walk finds no files completes
normally and reports zero for every counter and for the token sum,
while the mean and the median take the deterministic `nan` fallback
(modelled `none`) instead of the computation failing. -/
theorem C6_empty_dir (t : DirTree) (args : Args) (tk : Tiktoken)
    (h : walkFrom args.base_path t = []) :
    main (some t) args tk =
      (RunResult.completed initStats, [sepLine] ++ summaryLines initStats)
    ∧ initStats.total_files = 0 ∧ initStats.pdf_files = 0
    ∧ initStats.text_files = 0 ∧ initStats.skipped_files = 0
    ∧ npSum initStats.tokens = 0
    ∧ npMean initStats.tokens = none ∧ npMedian initStats.tokens = none := by
  refine ⟨?_, rfl, rfl, rfl, rfl, rfl, rfl, rfl⟩
  cases htk : tk.encoding_for_model args.model with
  | none => simp [main, htk, scan_directory, h]
  | some e => simp [main, htk, scan_directory, h]

theorem C6_empty_dir_witness :
    main (some emptyTree) args0 tk0 =
      (RunResult.completed initStats, [sepLine] ++ summaryLines initStats)
    ∧ initStats.total_files = 0 ∧ initStats.pdf_files = 0
    ∧ initStats.text_files = 0 ∧ initStats.skipped_files = 0
    ∧ npSum initStats.tokens = 0
    ∧ npMean initStats.tokens = none ∧ npMedian initStats.tokens = none :=
  C6_empty_dir emptyTree args0 tk0 rfl

/-- C9: with an existing root path, the run always completes: per-file
failure outcomes are absorbed by the per-file step (they are mere data
of the fold), the scan finishes, and the transcript ends with the
separator and the seven-line summary block. -/
theorem C9_run_always_summarizes (t : DirTree) (args : Args) (tk : Tiktoken) :
    ∃ s out, main (some t) args tk
        = (RunResult.completed s, out ++ [sepLine] ++ summaryLines s)
      ∧ (summaryLines s).length = 7 := by
  cases htk : tk.encoding_for_model args.model with
  | none =>
    exact ⟨(scan_directory args.base_path t tk.cl100k_base).1,
      (scan_directory args.base_path t tk.cl100k_base).2, by simp [main, htk], rfl⟩
  | some e =>
    exact ⟨(scan_directory args.base_path t e).1,
      (scan_directory args.base_path t e).2, by simp [main, htk], rfl⟩

/-! Monotonicity of the scanning fold, used for C10. -/

theorem scanStep_mono (encoder : Encoder) (acc : Stats × List String)
    (pf : String × FileEntry) :
    ∃ more, (scanStep encoder acc pf).1.tokens = acc.1.tokens ++ more
      ∧ acc.1.text_files ≤ (scanStep encoder acc pf).1.text_files := by
  have hstep : (scanStep encoder acc pf).1 = (processFile encoder acc.1 pf.1 pf.2).1 := rfl
  rw [hstep]
  rcases processFile_shape encoder acc.1 pf.1 pf.2 with hskip | ⟨tok, ht, _, _, _, hle⟩
  · rw [hskip]
    exact ⟨[], by simp, le_refl _⟩
  · exact ⟨[tok], ht, hle⟩

theorem scan_foldl_mono (encoder : Encoder) (l : List (String × FileEntry)) :
    ∀ acc : Stats × List String,
      ∃ more, (l.foldl (scanStep encoder) acc).1.tokens = acc.1.tokens ++ more
        ∧ acc.1.text_files ≤ (l.foldl (scanStep encoder) acc).1.text_files := by
  induction l with
  | nil =>
    intro acc
    exact ⟨[], by simp, le_refl _⟩
  | cons pf rest ih =>
    intro acc
    obtain ⟨m1, hm1, hle1⟩ := scanStep_mono encoder acc pf
    obtain ⟨m2, hm2, hle2⟩ := ih (scanStep encoder acc pf)
    rw [List.foldl_cons]
    exact ⟨m1 ++ m2, by rw [hm2, hm1, List.append_assoc], le_trans hle1 hle2⟩

theorem scan_foldl_text_mem (encoder : Encoder) (l : List (String × FileEntry)) :
    ∀ (acc : Stats × List String) (filepath : String) (f : FileEntry),
      (filepath, f) ∈ l → fileExt f ∉ EXCLUDED_EXTENSIONS → fileExt f ≠ ".pdf" →
      is_binary_file f = false →
      count_tokens (read_text_file filepath f).1 encoder
          ∈ (l.foldl (scanStep encoder) acc).1.tokens
        ∧ acc.1.text_files + 1 ≤ (l.foldl (scanStep encoder) acc).1.text_files := by
  induction l with
  | nil =>
    intro acc filepath f hmem
    simp at hmem
  | cons pf rest ih =>
    intro acc filepath f hmem h1 h2 h3
    rw [List.foldl_cons]
    rcases List.mem_cons.mp hmem with heq | hrest
    · cases heq.symm
      have hstep : (scanStep encoder acc (filepath, f)).1
          = (processFile encoder acc.1 filepath f).1 := rfl
      have hpf := processFile_text encoder acc.1 filepath f h1 h2 h3
      obtain ⟨more, hm, hle⟩ := scan_foldl_mono encoder rest (scanStep encoder acc (filepath, f))
      constructor
      · rw [hm, hstep, hpf]
        simp
      · have : acc.1.text_files + 1 = (scanStep encoder acc (filepath, f)).1.text_files := by
          rw [hstep, hpf]
        omega
    · have hmain := ih (scanStep encoder acc pf) filepath f hrest h1 h2 h3
      obtain ⟨_, _, hle0⟩ := scanStep_mono encoder acc pf
      exact ⟨hmain.1, by omega⟩

/-- C10: pruning by leading dot applies only to directory names.  A
file whose own name starts with a dot, once the walk visits it, is
classified like any other file; when it is neither excluded, nor a PDF,
nor binary, its token count is recorded and it is counted as a text
file. -/
theorem C10_dotfile_processed (t : DirTree) (encoder : Encoder) (base filepath : String)
    (f : FileEntry) (hmem : (filepath, f) ∈ walkFrom base t)
    (_hdot : startsWithDot f.name = true)
    (hex : fileExt f ∉ EXCLUDED_EXTENSIONS) (hpdf : fileExt f ≠ ".pdf")
    (hbin : is_binary_file f = false) :
    count_tokens (read_text_file filepath f).1 encoder
        ∈ (scan_directory base t encoder).1.tokens
      ∧ 1 ≤ (scan_directory base t encoder).1.text_files := by
  have h := scan_foldl_text_mem encoder (walkFrom base t) (initStats, []) filepath f
    hmem hex hpdf hbin
  simpa [scan_directory] using h

theorem C10_dotfile_processed_witness :
    count_tokens (read_text_file "/b/.env" dotfile).1 enc0
        ∈ (scan_directory "/b" dotTree enc0).1.tokens
      ∧ 1 ≤ (scan_directory "/b" dotTree enc0).1.text_files :=
  C10_dotfile_processed dotTree enc0 "/b" "/b/.env" dotfile
    (by simp [dotTree, walkFrom, walkSubs, dotfile, path_join])
    (by decide) (by decide) (by decide) (by decide)

end TokenCounter
